import Mathlib

/-!
Verification of the autoclass-migrator batch update engine (src/main.py).

The embedding models, from the source:
  * the error taxonomy of `google.api_core.exceptions` as imported by the
    script (`GoogleAPIError`, and the transient subclasses `TooManyRequests`,
    `InternalServerError`, `ServiceUnavailable`; in that library every API
    error, transient ones included, is a subclass of `GoogleAPIError`);
  * `retry_with_backoff` (lines 20-36), as a fuel recursion over the number
    of remaining attempts, recording the number of invocations of the wrapped
    function and the number of backoff sleeps performed;
  * the body of `process_bucket` (lines 41-91), as a function of the bucket's
    identity, of the fetch/patch errors injected by the remote service on
    this attempt, and of the current remote bucket state;
  * `process_csv` (lines 95-117), as collection of worker outcomes in an
    arbitrary completion order (a permutation of submission order), dropping
    outcomes that raised.
Network calls are modelled by explicit error-injection parameters; the
random jitter of the backoff delay is an explicit parameter of the delay
function.
-/

/-- Remote bucket configuration, as read and written through the cloud
client (the fields of the `bucket` object that `process_bucket` touches). -/
structure BucketState where
  storage_class : String
  location : String
  location_type : String
  autoclass_enabled : Bool
  autoclass_terminal_storage_class : String
  requester_pays : Bool
deriving DecidableEq, Inhabited

/-- The exceptions of `google.api_core.exceptions` that the script can
observe.  Every constructor models a subclass of `GoogleAPIError`: in that
library `TooManyRequests`, `InternalServerError` and `ServiceUnavailable`
are subclasses of `GoogleAPICallError`, itself a subclass of
`GoogleAPIError`, exactly like the terminal errors (`NotFound`,
`Forbidden`, `BadRequest`).  The string is what `str(e)` yields. -/
inductive GCPError where
  | tooManyRequests (m : String)
  | internalServerError (m : String)
  | serviceUnavailable (m : String)
  | notFound (m : String)
  | forbidden (m : String)
  | badRequest (m : String)
  | otherAPIError (m : String)
deriving DecidableEq, Inhabited

/-- `str(e)` of the exception. -/
def GCPError.msg : GCPError → String
  | .tooManyRequests m => m
  | .internalServerError m => m
  | .serviceUnavailable m => m
  | .notFound m => m
  | .forbidden m => m
  | .badRequest m => m
  | .otherAPIError m => m

/-- The three exception classes named in the `except` clause of
`retry_with_backoff` (line 27). -/
def GCPError.isTransient : GCPError → Bool
  | .tooManyRequests _ => true
  | .internalServerError _ => true
  | .serviceUnavailable _ => true
  | _ => false

/-- Any exception a worker can raise: a `GoogleAPIError` subclass, the
plain `Exception("Failed after N retries")` raised by the retry wrapper
(line 32), or any other unexpected Python exception. -/
inductive PyError where
  | gcp (e : GCPError)
  | retryExhausted (m : String)
  | unexpected (m : String)
deriving DecidableEq, Inhabited

/-- Whether the exception is caught by the `except` clause of the retry
wrapper (line 27): only the three transient `GoogleAPIError` subclasses. -/
def PyError.isTransient : PyError → Bool
  | .gcp e => e.isTransient
  | _ => false

/-- Whether the exception is caught by the `except GoogleAPIError` clause
of `process_bucket` (line 80): every `GCPError`, transient ones included. -/
def PyError.isGoogleAPIError : PyError → Bool
  | .gcp _ => true
  | _ => false

/-- One row of the output report: the base identity, the snapshot columns,
and `migration_status`. -/
structure ResultRow where
  project_id : String
  bucket_name : String
  storage_class : String
  location : String
  location_type : String
  autoclass_enabled : Bool
  autoclass_terminal_storage_class : String
  requester_pays : Bool
  migration_status : String
deriving DecidableEq, Inhabited

/-- The row built by the `except GoogleAPIError` handler of
`process_bucket` (lines 80-91): base identity, empty/default snapshot
fields, status `"Error: " ++ str(e)`. -/
def errorRow (project_id bucket_name m : String) : ResultRow :=
  { project_id := project_id
    bucket_name := bucket_name
    storage_class := ""
    location := ""
    location_type := ""
    autoclass_enabled := false
    autoclass_terminal_storage_class := ""
    requester_pays := false
    migration_status := "Error: " ++ m }

/-- The `response` dict of `process_bucket` (lines 51-59) extended with a
`migration_status` (lines 75 and 78): identity plus the bucket fields as
they were when `response` was built. -/
def snapshotRow (project_id bucket_name : String) (b : BucketState)
    (status : String) : ResultRow :=
  { project_id := project_id
    bucket_name := bucket_name
    storage_class := b.storage_class
    location := b.location
    location_type := b.location_type
    autoclass_enabled := b.autoclass_enabled
    autoclass_terminal_storage_class := b.autoclass_terminal_storage_class
    requester_pays := b.requester_pays
    migration_status := status }

instance {ε α : Type} [DecidableEq ε] [DecidableEq α] : DecidableEq (Except ε α)
  | .ok a, .ok b =>
    if h : a = b then .isTrue (congrArg Except.ok h)
    else .isFalse (fun he => h (Except.ok.inj he))
  | .ok _, .error _ => .isFalse (fun he => Except.noConfusion he)
  | .error _, .ok _ => .isFalse (fun he => Except.noConfusion he)
  | .error a, .error b =>
    if h : a = b then .isTrue (congrArg Except.error h)
    else .isFalse (fun he => h (Except.error.inj he))

/-- Outcome of one execution of the body of `process_bucket`: the value
returned (or the exception propagated), the bucket object passed to
`bucket.patch()` if that call was issued (`none` when no write happened),
and the remote bucket state afterwards. -/
structure BucketOutcome where
  result : Except PyError ResultRow
  patched : Option BucketState
  remote : BucketState
deriving DecidableEq

/-- Number of write calls the execution issued. -/
def BucketOutcome.patch_calls (o : BucketOutcome) : Nat :=
  if o.patched.isSome then 1 else 0

/-- The body of `process_bucket` (lines 41-91), before the
`retry_with_backoff` decorator is applied.  `fetchErr` (resp. `patchErr`)
is the exception `client.get_bucket` (resp. `bucket.patch`) raises on this
attempt, `none` when the call succeeds; `remote` is the bucket state the
service holds, returned by a successful fetch and replaced by the staged
bucket object on a successful patch.  The `except GoogleAPIError` clause
(line 80) catches every `GCPError` — also the transient ones — and turns
it into a returned `errorRow`; any other exception propagates. -/
def process_bucket_body (project_id bucket_name : String)
    (fetchErr patchErr : Option PyError) (remote : BucketState) :
    BucketOutcome :=
  match fetchErr with
  | some e =>
    if e.isGoogleAPIError then
      { result := .ok (errorRow project_id bucket_name (match e with | .gcp g => g.msg | .retryExhausted m => m | .unexpected m => m))
        patched := none
        remote := remote }
    else
      { result := .error e, patched := none, remote := remote }
  | none =>
    let bucket := remote
    let migrated := false
    let bucket1 := if !bucket.autoclass_enabled then
        { bucket with autoclass_enabled := true } else bucket
    let migrated1 := if !bucket.autoclass_enabled then true else migrated
    let bucket2 := if !(bucket1.autoclass_terminal_storage_class == "ARCHIVE") then
        { bucket1 with autoclass_terminal_storage_class := "ARCHIVE" } else bucket1
    let migrated2 := if !(bucket1.autoclass_terminal_storage_class == "ARCHIVE") then
        true else migrated1
    if !migrated2 then
      { result := .ok (snapshotRow project_id bucket_name bucket "Skipped")
        patched := none
        remote := remote }
    else
      match patchErr with
      | none =>
        { result := .ok (snapshotRow project_id bucket_name bucket "Migrated")
          patched := some bucket2
          remote := bucket2 }
      | some e =>
        if e.isGoogleAPIError then
          { result := .ok (errorRow project_id bucket_name (match e with | .gcp g => g.msg | .retryExhausted m => m | .unexpected m => m))
            patched := some bucket2
            remote := remote }
        else
          { result := .error e, patched := some bucket2, remote := remote }

/-- Outcome of a call to a function wrapped by `retry_with_backoff`: the
value returned (or exception raised), how many times the wrapped function
was invoked, and how many backoff sleeps were performed. -/
structure RetryOutcome (α : Type) where
  result : Except PyError α
  calls : Nat
  sleeps : Nat
deriving DecidableEq

/-- The loop of the `wrapper` in `retry_with_backoff` (lines 22-32).
`f k` is the outcome of the k-th invocation of the wrapped function;
`attempt` is the current value of the `attempt` variable and `remaining`
the fuel `retries - attempt` (the loop runs while `attempt < retries`).
A transient exception is swallowed, a sleep is performed, and the loop
continues; any other exception, and any returned value, ends the loop.
When the fuel runs out, `Exception("Failed after {retries} retries")` is
raised (line 32). -/
def retryGo {α : Type} (f : Nat → Except PyError α) (retries : Nat) :
    Nat → Nat → RetryOutcome α
  | _, 0 =>
    { result := .error (.retryExhausted
        ("Failed after " ++ toString retries ++ " retries"))
      calls := 0
      sleeps := 0 }
  | attempt, r + 1 =>
    match f attempt with
    | .ok a => { result := .ok a, calls := 1, sleeps := 0 }
    | .error e =>
      if e.isTransient then
        let rest := retryGo f retries (attempt + 1) r
        { result := rest.result, calls := rest.calls + 1, sleeps := rest.sleeps + 1 }
      else
        { result := .error e, calls := 1, sleeps := 0 }

/-- `retry_with_backoff(retries)` applied to a function whose k-th
invocation yields `f k` (lines 20-36): the loop starts at `attempt = 0`. -/
def retry_with_backoff {α : Type} (retries : Nat)
    (f : Nat → Except PyError α) : RetryOutcome α :=
  retryGo f retries 0 retries

/-- The backoff delay of line 29:
`backoff_in_seconds * (2 ** attempt) + random.uniform(0, 1)`, with the
jitter drawn by `random.uniform(0, 1)` made an explicit parameter. -/
def backoff_delay (backoff_in_seconds : ℚ) (attempt : Nat) (jitter : ℚ) : ℚ :=
  backoff_in_seconds * 2 ^ attempt + jitter

/-- Expected backoff delay for a given attempt: the jitter is uniform on
[0, 1), whose mean is 1/2. -/
def expected_backoff_delay (backoff_in_seconds : ℚ) (attempt : Nat) : ℚ :=
  backoff_delay backoff_in_seconds attempt (1 / 2)

/-- One input row of the CSV, with its two required columns (line 102). -/
structure Row where
  GOOGLE_PROJECT_ID : String
  BUCKET_NAME : String
deriving DecidableEq, Inhabited

/-- Behaviour of the remote service towards one row's worker: for each
attempt number, the error injected into the fetch call, the error injected
into the patch call, and the bucket state the service holds when that
attempt fetches. -/
structure RowEnv where
  fetchErr : Nat → Option PyError
  patchErr : Nat → Option PyError
  remote : Nat → BucketState

/-- `process_bucket` as the orchestrator calls it (line 102): the body
wrapped by `@retry_with_backoff(retries=5)` (line 40). -/
def process_bucket (row : Row) (env : RowEnv) : RetryOutcome ResultRow :=
  retry_with_backoff 5 (fun k =>
    (process_bucket_body row.GOOGLE_PROJECT_ID row.BUCKET_NAME
      (env.fetchErr k) (env.patchErr k) (env.remote k)).result)

/-- The list of futures submitted by `process_csv` (lines 101-104), each
holding its worker's final outcome, in submission (= input) order. -/
def futures (tasks : List (Row × RowEnv)) : List (Except PyError ResultRow) :=
  tasks.map fun t => (process_bucket t.1 t.2).result

/-- The `try/except` of the collection loop (lines 107-112): a future whose
worker returned a row contributes it to `results`; a future whose worker
raised is logged and dropped. -/
def collectResult : Except PyError ResultRow → Option ResultRow
  | .ok r => some r
  | .error _ => none

/-- `process_csv`'s collection loop plus the final CSV write (lines
107-116), given the futures' outcomes in the order `as_completed` yields
them (an arbitrary permutation of submission order): the rows of the
output report, in that completion order. -/
def process_csv (completed : List (Except PyError ResultRow)) : List ResultRow :=
  completed.filterMap collectResult

/-- A `migration_status` the spec's data model allows. -/
def statusOk (r : ResultRow) : Prop :=
  r.migration_status = "Migrated" ∨ r.migration_status = "Skipped" ∨
    ∃ m, r.migration_status = "Error: " ++ m

/-- The output row a worker produces when it does not raise. -/
def rowOk (t : Row × RowEnv) : ResultRow :=
  match (process_bucket t.1 t.2).result with
  | .ok r => r
  | .error _ => default

/-- Whether a worker's final outcome is a returned row (its future's
`result()` does not raise). -/
def workerOk (t : Row × RowEnv) : Bool :=
  match (process_bucket t.1 t.2).result with
  | .ok _ => true
  | .error _ => false

/-- Whether an invocation outcome is a raised exception that the retry
loop's `except` clause catches (one of the three transient classes). -/
def exceptTransient {α : Type} : Except PyError α → Bool
  | .error e => e.isTransient
  | .ok _ => false

/-- Fixture: a bucket that needs both corrections (Autoclass disabled,
terminal storage class unset). -/
def bucketNeedsBoth : BucketState :=
  { storage_class := "STANDARD", location := "US", location_type := "multi-region",
    autoclass_enabled := false, autoclass_terminal_storage_class := "",
    requester_pays := false }

/-- Fixture: a bucket already in the target configuration. -/
def bucketMigrated : BucketState :=
  { storage_class := "STANDARD", location := "US", location_type := "multi-region",
    autoclass_enabled := true, autoclass_terminal_storage_class := "ARCHIVE",
    requester_pays := false }

/-- Fixture: the input row `(project="p1", bucket="b1")`. -/
def rowP1B1 : Row := { GOOGLE_PROJECT_ID := "p1", BUCKET_NAME := "b1" }

/-- Fixture: the service rate-limits the fetch on the first three attempts
and behaves normally afterwards. -/
def envTransientThrice : RowEnv :=
  { fetchErr := fun k =>
      if k < 3 then some (.gcp (.tooManyRequests "429 rate limited")) else none
    patchErr := fun _ => none
    remote := fun _ => bucketNeedsBoth }

/-- Fixture: a fully reliable service holding an already-migrated bucket. -/
def envReliable : RowEnv :=
  { fetchErr := fun _ => none, patchErr := fun _ => none,
    remote := fun _ => bucketMigrated }

/-- Fixture: a reliable service holding a bucket that needs migration. -/
def envNeedsMigration : RowEnv :=
  { fetchErr := fun _ => none, patchErr := fun _ => none,
    remote := fun _ => bucketNeedsBoth }

/-- Fixture: the fetch raises a terminal `NotFound` error. -/
def envNotFound : RowEnv :=
  { fetchErr := fun _ => some (.gcp (.notFound "404 bucket does not exist")),
    patchErr := fun _ => none, remote := fun _ => bucketNeedsBoth }

/-- Fixture: the fetch raises an exception outside the `GoogleAPIError`
hierarchy, which no layer below the orchestrator catches. -/
def envUnexpected : RowEnv :=
  { fetchErr := fun _ => some (.unexpected "boom"),
    patchErr := fun _ => none, remote := fun _ => bucketNeedsBoth }

/-- Fixture: a second input row. -/
def rowP2B2 : Row := { GOOGLE_PROJECT_ID := "p2", BUCKET_NAME := "b2" }

/-- Fixture: a two-row batch whose workers both return rows. -/
def tasksAllOk : List (Row × RowEnv) :=
  [(rowP1B1, envReliable), (rowP2B2, envNeedsMigration)]

/-- Fixture: a two-row batch whose second worker raises an unexpected
exception. -/
def tasksOneBad : List (Row × RowEnv) :=
  [(rowP1B1, envReliable), (rowP2B2, envUnexpected)]

/-- Fixture: a wrapped function that raises `ServiceUnavailable` on every
invocation. -/
def alwaysTransient : Nat → Except PyError Nat :=
  fun _ => .error (.gcp (.serviceUnavailable "503 service unavailable"))

theorem retryGo_succ {α : Type} (f : Nat → Except PyError α) (retries a r : Nat) :
    retryGo f retries a (r + 1) =
      match f a with
      | .ok v => { result := .ok v, calls := 1, sleeps := 0 }
      | .error e =>
        if e.isTransient then
          { result := (retryGo f retries (a + 1) r).result,
            calls := (retryGo f retries (a + 1) r).calls + 1,
            sleeps := (retryGo f retries (a + 1) r).sleeps + 1 }
        else { result := .error e, calls := 1, sleeps := 0 } := rfl

theorem retryGo_calls_le {α : Type} (f : Nat → Except PyError α) (retries : Nat) :
    ∀ r a, (retryGo f retries a r).calls ≤ r := by
  intro r
  induction r with
  | zero => intro a; exact Nat.le_refl 0
  | succ n ih =>
    intro a
    rw [retryGo_succ]
    cases hf : f a with
    | ok v => exact Nat.succ_le_succ (Nat.zero_le n)
    | error e =>
      by_cases ht : e.isTransient = true
      · simp only [ht, if_true]
        exact Nat.succ_le_succ (ih (a + 1))
      · simp only [ht, if_false]
        exact Nat.succ_le_succ (Nat.zero_le n)

theorem retryGo_all_transient {α : Type} (f : Nat → Except PyError α) (retries : Nat) :
    ∀ r a, (∀ i, i < r → exceptTransient (f (a + i)) = true) →
      retryGo f retries a r =
        { result := .error (.retryExhausted
            ("Failed after " ++ toString retries ++ " retries")),
          calls := r, sleeps := r } := by
  intro r
  induction r with
  | zero => intro a _; rfl
  | succ n ih =>
    intro a h
    have h0 : exceptTransient (f (a + 0)) = true := h 0 (Nat.succ_pos n)
    rw [Nat.add_zero] at h0
    rw [retryGo_succ]
    cases hf : f a with
    | ok v => rw [hf] at h0; exact absurd h0 (by simp [exceptTransient])
    | error e =>
      rw [hf] at h0
      have ht : e.isTransient = true := h0
      have hrec := ih (a + 1) (fun i hi => by
        have heq : a + 1 + i = a + (i + 1) := by omega
        rw [heq]
        exact h (i + 1) (Nat.succ_lt_succ hi))
      simp only [ht, if_true, hrec]

theorem retryGo_first_settled {α : Type} (f : Nat → Except PyError α) (retries : Nat) :
    ∀ k r a, k < r → (∀ i, i < k → exceptTransient (f (a + i)) = true) →
      exceptTransient (f (a + k)) = false →
      retryGo f retries a r = { result := f (a + k), calls := k + 1, sleeps := k } := by
  intro k
  induction k with
  | zero =>
    intro r a hr _ hk
    obtain ⟨n, rfl⟩ : ∃ n, r = n + 1 := ⟨r - 1, by omega⟩
    simp only [Nat.add_zero] at hk ⊢
    rw [retryGo_succ]
    cases hf : f a with
    | ok v => rfl
    | error e =>
      rw [hf] at hk
      have ht : e.isTransient = false := hk
      simp [ht]
  | succ k ih =>
    intro r a hr h hk
    obtain ⟨n, rfl⟩ : ∃ n, r = n + 1 := ⟨r - 1, by omega⟩
    have h0 : exceptTransient (f (a + 0)) = true := h 0 (Nat.succ_pos k)
    rw [Nat.add_zero] at h0
    rw [retryGo_succ]
    cases hf : f a with
    | ok v => rw [hf] at h0; exact absurd h0 (by simp [exceptTransient])
    | error e =>
      rw [hf] at h0
      have ht : e.isTransient = true := h0
      have hrec := ih n (a + 1) (Nat.lt_of_succ_lt_succ hr)
        (fun i hi => by
          have heq : a + 1 + i = a + (i + 1) := by omega
          rw [heq]
          exact h (i + 1) (Nat.succ_lt_succ hi))
        (by
          have heq : a + 1 + k = a + (k + 1) := by omega
          rw [heq]
          exact hk)
      simp only [ht, if_true, hrec]
      have heq : a + 1 + k = a + (k + 1) := by omega
      rw [heq]

theorem process_bucket_body_not_transient (pid bn : String)
    (fe pe : Option PyError) (s : BucketState) :
    exceptTransient (process_bucket_body pid bn fe pe s).result = false := by
  cases fe with
  | some e =>
    cases e <;>
      simp [process_bucket_body, PyError.isGoogleAPIError, exceptTransient,
        PyError.isTransient]
  | none =>
    cases pe with
    | none =>
      by_cases hen : s.autoclass_enabled = true <;>
        by_cases har : s.autoclass_terminal_storage_class = "ARCHIVE" <;>
          simp [process_bucket_body, hen, har, exceptTransient]
    | some e =>
      cases e <;>
        by_cases hen : s.autoclass_enabled = true <;>
          by_cases har : s.autoclass_terminal_storage_class = "ARCHIVE" <;>
            simp [process_bucket_body, hen, har, exceptTransient,
              PyError.isTransient, PyError.isGoogleAPIError]

theorem process_bucket_runs_once (row : Row) (env : RowEnv) :
    process_bucket row env =
      { result := (process_bucket_body row.GOOGLE_PROJECT_ID row.BUCKET_NAME
          (env.fetchErr 0) (env.patchErr 0) (env.remote 0)).result,
        calls := 1, sleeps := 0 } := by
  have h := retryGo_first_settled
    (fun k => (process_bucket_body row.GOOGLE_PROJECT_ID row.BUCKET_NAME
      (env.fetchErr k) (env.patchErr k) (env.remote k)).result) 5
    0 5 0 (by omega) (fun i hi => absurd hi (Nat.not_lt_zero i))
    (process_bucket_body_not_transient _ _ _ _ _)
  exact h

theorem process_bucket_body_shape (pid bn : String) (fe pe : Option PyError)
    (s : BucketState) :
    ∀ r : ResultRow, (process_bucket_body pid bn fe pe s).result = .ok r →
      r.project_id = pid ∧ r.bucket_name = bn ∧ statusOk r := by
  intro r h
  cases fe with
  | some e =>
    cases e with
    | gcp g =>
      simp [process_bucket_body, PyError.isGoogleAPIError] at h
      subst h
      exact ⟨rfl, rfl, Or.inr (Or.inr ⟨g.msg, rfl⟩)⟩
    | retryExhausted m =>
      simp [process_bucket_body, PyError.isGoogleAPIError] at h
    | unexpected m =>
      simp [process_bucket_body, PyError.isGoogleAPIError] at h
  | none =>
    by_cases hen : s.autoclass_enabled = true <;>
      by_cases har : s.autoclass_terminal_storage_class = "ARCHIVE"
    · simp [process_bucket_body, hen, har] at h
      subst h
      exact ⟨rfl, rfl, Or.inr (Or.inl rfl)⟩
    all_goals
      cases pe with
      | none =>
        simp [process_bucket_body, hen, har] at h
        subst h
        exact ⟨rfl, rfl, Or.inl rfl⟩
      | some e =>
        cases e with
        | gcp g =>
          simp [process_bucket_body, hen, har, PyError.isGoogleAPIError] at h
          subst h
          exact ⟨rfl, rfl, Or.inr (Or.inr ⟨g.msg, rfl⟩)⟩
        | retryExhausted m =>
          simp [process_bucket_body, hen, har, PyError.isGoogleAPIError] at h
        | unexpected m =>
          simp [process_bucket_body, hen, har, PyError.isGoogleAPIError] at h

theorem process_csv_futures (tasks : List (Row × RowEnv)) :
    process_csv (futures tasks) = (tasks.filter workerOk).map rowOk := by
  induction tasks with
  | nil => rfl
  | cons t ts ih =>
    cases h : (process_bucket t.1 t.2).result with
    | ok r =>
      have hw : workerOk t = true := by simp [workerOk, h]
      have hro : rowOk t = r := by simp [rowOk, h]
      simp only [futures, List.map_cons, process_csv, List.filterMap_cons, h,
        collectResult, List.filter_cons, hw, if_true, hro]
      exact congrArg (fun l => r :: l) ih
    | error e =>
      have hw : workerOk t = false := by simp [workerOk, h]
      simp only [futures, List.map_cons, process_csv, List.filterMap_cons, h,
        collectResult, List.filter_cons, hw, Bool.false_eq_true, if_false]
      exact ih

theorem process_bucket_body_patch_calls_le_one (pid bn : String)
    (fe pe : Option PyError) (s : BucketState) :
    (process_bucket_body pid bn fe pe s).patch_calls ≤ 1 := by
  unfold BucketOutcome.patch_calls
  split <;> omega

theorem process_bucket_body_skip (pid bn : String) (pe : Option PyError)
    (s : BucketState) (h1 : s.autoclass_enabled = true)
    (h2 : s.autoclass_terminal_storage_class = "ARCHIVE") :
    process_bucket_body pid bn none pe s =
      { result := .ok (snapshotRow pid bn s "Skipped"),
        patched := none, remote := s } := by
  simp [process_bucket_body, h1, h2]

theorem process_bucket_body_migrate (pid bn : String) (s : BucketState)
    (h : s.autoclass_enabled = false ∨
      s.autoclass_terminal_storage_class ≠ "ARCHIVE") :
    process_bucket_body pid bn none none s =
      { result := .ok (snapshotRow pid bn s "Migrated")
        patched := some { s with autoclass_enabled := true,
                                 autoclass_terminal_storage_class := "ARCHIVE" }
        remote := { s with autoclass_enabled := true,
                           autoclass_terminal_storage_class := "ARCHIVE" } } := by
  obtain ⟨sc, loc, lt, ae, term, rp⟩ := s
  cases ae <;> by_cases har : term = "ARCHIVE" <;>
    simp_all [process_bucket_body, snapshotRow]

theorem process_bucket_body_patched (pid bn : String) (pe : Option PyError)
    (s : BucketState)
    (h : s.autoclass_enabled = false ∨
      s.autoclass_terminal_storage_class ≠ "ARCHIVE") :
    (process_bucket_body pid bn none pe s).patched =
      some { s with autoclass_enabled := true,
                    autoclass_terminal_storage_class := "ARCHIVE" } := by
  obtain ⟨sc, loc, lt, ae, term, rp⟩ := s
  cases pe with
  | none =>
    cases ae <;> by_cases har : term = "ARCHIVE" <;>
      simp_all [process_bucket_body]
  | some e =>
    cases ae <;> by_cases har : term = "ARCHIVE" <;>
      by_cases hg : e.isGoogleAPIError = true <;>
        simp_all [process_bucket_body]

/-- C1: the claim says a transient error raised by fetch or patch is
retried with backoff up to 5 attempts, so three transient failures followed
by success yield the success-path result.  The code does not do this:
`except GoogleAPIError` inside `process_bucket` (line 80) also catches the
three transient exception classes, which subclass `GoogleAPIError`, so the
retry wrapper never sees them.  On the C1 scenario (TooManyRequests on the
first three fetches, then success) the first attempt already returns an
"Error: ..." row: the wrapped function is invoked exactly once, no backoff
sleep happens, and the final result is not the success-path result. -/
theorem transient_error_not_retried :
    process_bucket rowP1B1 envTransientThrice =
      { result := .ok (errorRow "p1" "b1" "429 rate limited"),
        calls := 1, sleeps := 0 } ∧
    (errorRow "p1" "b1" "429 rate limited").migration_status =
      "Error: 429 rate limited" ∧
    (process_bucket rowP1B1 envTransientThrice).result ≠
      .ok (snapshotRow "p1" "b1" bucketNeedsBoth "Migrated") := by
  refine ⟨?_, rfl, ?_⟩
  · rw [process_bucket_runs_once]
    rfl
  · rw [process_bucket_runs_once]
    decide

/-- C2, counterexample: for the scenario input `(project="p1",
bucket="b1")` with the remote bucket having `autoclass_enabled=false`, the
output row does have `migration_status="Migrated"`, but it carries the
*fetched* field values — `autoclass_enabled=false` and the fetched terminal
storage class, not "ARCHIVE" — because the `response` dict (line 51) is
built before the bucket object is mutated. -/
theorem migrated_row_counterexample :
    (process_bucket_body "p1" "b1" none none bucketNeedsBoth).result =
      .ok (snapshotRow "p1" "b1" bucketNeedsBoth "Migrated") ∧
    (snapshotRow "p1" "b1" bucketNeedsBoth "Migrated").migration_status =
      "Migrated" ∧
    (snapshotRow "p1" "b1" bucketNeedsBoth "Migrated").autoclass_enabled =
      false ∧
    (snapshotRow "p1" "b1" bucketNeedsBoth
        "Migrated").autoclass_terminal_storage_class ≠ "ARCHIVE" := by
  refine ⟨?_, rfl, rfl, ?_⟩
  · rw [process_bucket_body_migrate "p1" "b1" bucketNeedsBoth (Or.inl rfl)]
  · decide

/-- C2, amended: for an input row whose remote bucket has
`autoclass_enabled=false`, the output row has `migration_status="Migrated"`
and snapshot fields equal to the state as fetched (in particular
`autoclass_enabled=false`), while the remote bucket state after the patch
has `autoclass_enabled=true` and
`autoclass_terminal_storage_class="ARCHIVE"`. -/
theorem migrated_row_reflects_fetched_state (pid bn : String)
    (s : BucketState) (h : s.autoclass_enabled = false) :
    (process_bucket_body pid bn none none s).result =
      .ok (snapshotRow pid bn s "Migrated") ∧
    (snapshotRow pid bn s "Migrated").autoclass_enabled = false ∧
    (process_bucket_body pid bn none none s).remote.autoclass_enabled =
      true ∧
    (process_bucket_body pid bn none none
        s).remote.autoclass_terminal_storage_class = "ARCHIVE" := by
  rw [process_bucket_body_migrate pid bn s (Or.inl h)]
  exact ⟨rfl, by simp [snapshotRow, h], rfl, rfl⟩

theorem migrated_row_reflects_fetched_state_witness :
    (process_bucket_body "p1" "b1" none none bucketNeedsBoth).result =
      .ok (snapshotRow "p1" "b1" bucketNeedsBoth "Migrated") ∧
    (snapshotRow "p1" "b1" bucketNeedsBoth "Migrated").autoclass_enabled =
      false ∧
    (process_bucket_body "p1" "b1" none none
        bucketNeedsBoth).remote.autoclass_enabled = true ∧
    (process_bucket_body "p1" "b1" none none
        bucketNeedsBoth).remote.autoclass_terminal_storage_class =
      "ARCHIVE" :=
  migrated_row_reflects_fetched_state "p1" "b1" bucketNeedsBoth rfl

/-- C3: when no worker raises an unexpected exception, the collected output
is a permutation of one result row per input row, each row carrying its own
project id and bucket name, with `migration_status` equal to "Migrated" or
"Skipped" or a string of the form "Error: <message>"; completion order may
be any permutation of submission order. -/
theorem run_yields_one_row_per_input (tasks : List (Row × RowEnv))
    (completed : List (Except PyError ResultRow))
    (hperm : completed.Perm (futures tasks))
    (hok : ∀ t ∈ tasks, workerOk t = true) :
    (process_csv completed).Perm (tasks.map rowOk) ∧
    (process_csv completed).length = tasks.length ∧
    ∀ t ∈ tasks, (rowOk t).project_id = t.1.GOOGLE_PROJECT_ID ∧
      (rowOk t).bucket_name = t.1.BUCKET_NAME ∧ statusOk (rowOk t) := by
  have hfilter : tasks.filter workerOk = tasks := List.filter_eq_self.mpr hok
  have hp : (process_csv completed).Perm (process_csv (futures tasks)) :=
    List.Perm.filterMap collectResult hperm
  rw [process_csv_futures tasks, hfilter] at hp
  refine ⟨hp, ?_, ?_⟩
  · rw [hp.length_eq, List.length_map]
  · intro t ht
    cases hres : (process_bucket t.1 t.2).result with
    | ok r =>
      have hro : rowOk t = r := by simp [rowOk, hres]
      rw [hro]
      have hbody : (process_bucket_body t.1.GOOGLE_PROJECT_ID t.1.BUCKET_NAME
          (t.2.fetchErr 0) (t.2.patchErr 0) (t.2.remote 0)).result = .ok r := by
        rw [← hres, process_bucket_runs_once]
      exact process_bucket_body_shape _ _ _ _ _ r hbody
    | error e =>
      have hw := hok t ht
      simp [workerOk, hres] at hw

theorem run_yields_one_row_per_input_witness :
    (process_csv ((futures tasksAllOk).reverse)).Perm (tasksAllOk.map rowOk) ∧
    (process_csv ((futures tasksAllOk).reverse)).length = tasksAllOk.length :=
  ⟨(run_yields_one_row_per_input tasksAllOk ((futures tasksAllOk).reverse)
      (List.reverse_perm (futures tasksAllOk)) (by decide)).1,
   (run_yields_one_row_per_input tasksAllOk ((futures tasksAllOk).reverse)
      (List.reverse_perm (futures tasksAllOk)) (by decide)).2.1⟩

/-- C4: when the fetched bucket already has `autoclass_enabled=true` and
`autoclass_terminal_storage_class="ARCHIVE"`, the result status is
"Skipped", no patch call is issued, and the snapshot fields of the result
are the fetched current state (whatever the patch call would have done). -/
theorem already_migrated_skipped (pid bn : String) (pe : Option PyError)
    (s : BucketState) (h1 : s.autoclass_enabled = true)
    (h2 : s.autoclass_terminal_storage_class = "ARCHIVE") :
    process_bucket_body pid bn none pe s =
      { result := .ok (snapshotRow pid bn s "Skipped"),
        patched := none, remote := s } ∧
    (process_bucket_body pid bn none pe s).patch_calls = 0 := by
  have heq := process_bucket_body_skip pid bn pe s h1 h2
  exact ⟨heq, by rw [heq]; rfl⟩

theorem already_migrated_skipped_witness :
    process_bucket_body "p1" "b1" none none bucketMigrated =
      { result := .ok (snapshotRow "p1" "b1" bucketMigrated "Skipped"),
        patched := none, remote := bucketMigrated } ∧
    (process_bucket_body "p1" "b1" none none bucketMigrated).patch_calls =
      0 :=
  already_migrated_skipped "p1" "b1" none bucketMigrated rfl rfl

/-- C5: when the fetched bucket has `autoclass_enabled=false` or a terminal
storage class other than "ARCHIVE", exactly one patch call is issued, the
bucket object passed to that single patch call has both
`autoclass_enabled=true` and `autoclass_terminal_storage_class="ARCHIVE"`,
and when the patch succeeds the status is "Migrated"; moreover every
execution of the body issues at most one write call. -/
theorem needs_migration_single_patch (pid bn : String) (pe : Option PyError)
    (s : BucketState)
    (h : s.autoclass_enabled = false ∨
      s.autoclass_terminal_storage_class ≠ "ARCHIVE") :
    (process_bucket_body pid bn none pe s).patched =
      some { s with autoclass_enabled := true,
                    autoclass_terminal_storage_class := "ARCHIVE" } ∧
    (process_bucket_body pid bn none pe s).patch_calls = 1 ∧
    (pe = none →
      (process_bucket_body pid bn none pe s).result =
        .ok (snapshotRow pid bn s "Migrated")) ∧
    ∀ (fe2 pe2 : Option PyError) (s2 : BucketState),
      (process_bucket_body pid bn fe2 pe2 s2).patch_calls ≤ 1 := by
  have hpatched := process_bucket_body_patched pid bn pe s h
  refine ⟨hpatched, ?_, ?_, fun fe2 pe2 s2 =>
    process_bucket_body_patch_calls_le_one pid bn fe2 pe2 s2⟩
  · rw [BucketOutcome.patch_calls, hpatched]
    rfl
  · intro hpe
    subst hpe
    rw [process_bucket_body_migrate pid bn s h]

theorem needs_migration_single_patch_witness :
    (process_bucket_body "p1" "b1" none none bucketNeedsBoth).patched =
      some { bucketNeedsBoth with autoclass_enabled := true,
                                  autoclass_terminal_storage_class := "ARCHIVE" } ∧
    (process_bucket_body "p1" "b1" none none bucketNeedsBoth).patch_calls =
      1 ∧
    (process_bucket_body "p1" "b1" none none bucketNeedsBoth).result =
      .ok (snapshotRow "p1" "b1" bucketNeedsBoth "Migrated") :=
  ⟨(needs_migration_single_patch "p1" "b1" none bucketNeedsBoth
      (Or.inl rfl)).1,
   (needs_migration_single_patch "p1" "b1" none bucketNeedsBoth
      (Or.inl rfl)).2.1,
   (needs_migration_single_patch "p1" "b1" none bucketNeedsBoth
      (Or.inl rfl)).2.2.1 rfl⟩

/-- C6: when the fetch raises a terminal API error (not found, permission
denied, invalid argument — any non-transient `GoogleAPIError`), the wrapped
call invokes the body exactly once with no backoff sleep, the result row
has `migration_status = "Error: " ++ message` with every snapshot field
empty/default, and the collection loop keeps processing the remaining
futures with this row collected. -/
theorem terminal_fetch_error_no_retry (row : Row) (env : RowEnv)
    (g : GCPError) (_hterm : g.isTransient = false)
    (hfetch : env.fetchErr 0 = some (.gcp g)) :
    process_bucket row env =
      { result := .ok (errorRow row.GOOGLE_PROJECT_ID row.BUCKET_NAME g.msg),
        calls := 1, sleeps := 0 } ∧
    errorRow row.GOOGLE_PROJECT_ID row.BUCKET_NAME g.msg =
      { project_id := row.GOOGLE_PROJECT_ID,
        bucket_name := row.BUCKET_NAME,
        storage_class := "", location := "", location_type := "",
        autoclass_enabled := false, autoclass_terminal_storage_class := "",
        requester_pays := false,
        migration_status := "Error: " ++ g.msg } ∧
    (process_bucket_body row.GOOGLE_PROJECT_ID row.BUCKET_NAME
      (env.fetchErr 0) (env.patchErr 0) (env.remote 0)).patched = none ∧
    ∀ rest : List (Except PyError ResultRow),
      process_csv ((process_bucket row env).result :: rest) =
        errorRow row.GOOGLE_PROJECT_ID row.BUCKET_NAME g.msg ::
          process_csv rest := by
  have hbody : process_bucket_body row.GOOGLE_PROJECT_ID row.BUCKET_NAME
      (env.fetchErr 0) (env.patchErr 0) (env.remote 0) =
      { result := .ok (errorRow row.GOOGLE_PROJECT_ID row.BUCKET_NAME g.msg),
        patched := none, remote := env.remote 0 } := by
    rw [hfetch]
    simp [process_bucket_body, PyError.isGoogleAPIError]
  have hrun : process_bucket row env =
      { result := .ok (errorRow row.GOOGLE_PROJECT_ID row.BUCKET_NAME g.msg),
        calls := 1, sleeps := 0 } := by
    rw [process_bucket_runs_once, hbody]
  refine ⟨hrun, rfl, by rw [hbody], fun rest => ?_⟩
  rw [hrun]
  rfl

theorem terminal_fetch_error_no_retry_witness :
    process_bucket rowP1B1 envNotFound =
      { result := .ok (errorRow "p1" "b1" "404 bucket does not exist"),
        calls := 1, sleeps := 0 } :=
  (terminal_fetch_error_no_retry rowP1B1 envNotFound
    (.notFound "404 bucket does not exist") rfl rfl).1

/-- C7: idempotence of the update with a reliable service and no concurrent
external change.  If the fetched bucket needs migration, the first run
reports "Migrated" and leaves the remote bucket corrected; a second run on
the resulting remote state reports "Skipped" and issues no write.  On any
already-migrated bucket the run always reports "Skipped" with no write. -/
theorem updater_idempotent (pid bn : String) (s : BucketState)
    (h : s.autoclass_enabled = false ∨
      s.autoclass_terminal_storage_class ≠ "ARCHIVE") :
    (process_bucket_body pid bn none none s).result =
      .ok (snapshotRow pid bn s "Migrated") ∧
    (process_bucket_body pid bn none none
        (process_bucket_body pid bn none none s).remote).result =
      .ok (snapshotRow pid bn
        (process_bucket_body pid bn none none s).remote "Skipped") ∧
    (process_bucket_body pid bn none none
        (process_bucket_body pid bn none none s).remote).patched = none ∧
    ∀ s2 : BucketState, s2.autoclass_enabled = true →
      s2.autoclass_terminal_storage_class = "ARCHIVE" →
      process_bucket_body pid bn none none s2 =
        { result := .ok (snapshotRow pid bn s2 "Skipped"),
          patched := none, remote := s2 } := by
  have h1 := process_bucket_body_migrate pid bn s h
  have hrem1 : (process_bucket_body pid bn none none s).remote.autoclass_enabled =
      true := by rw [h1]
  have hrem2 : (process_bucket_body pid bn none none
      s).remote.autoclass_terminal_storage_class = "ARCHIVE" := by rw [h1]
  have h2 := process_bucket_body_skip pid bn none
    (process_bucket_body pid bn none none s).remote hrem1 hrem2
  refine ⟨by rw [h1], by rw [h2], by rw [h2], fun s2 hs1 hs2 =>
    process_bucket_body_skip pid bn none s2 hs1 hs2⟩

theorem updater_idempotent_witness :
    (process_bucket_body "p1" "b1" none none bucketNeedsBoth).result =
      .ok (snapshotRow "p1" "b1" bucketNeedsBoth "Migrated") ∧
    (process_bucket_body "p1" "b1" none none
        (process_bucket_body "p1" "b1" none none bucketNeedsBoth).remote).result =
      .ok (snapshotRow "p1" "b1"
        (process_bucket_body "p1" "b1" none none bucketNeedsBoth).remote
        "Skipped") ∧
    (process_bucket_body "p1" "b1" none none
        (process_bucket_body "p1" "b1" none none
          bucketNeedsBoth).remote).patched = none :=
  ⟨(updater_idempotent "p1" "b1" bucketNeedsBoth (Or.inl rfl)).1,
   (updater_idempotent "p1" "b1" bucketNeedsBoth (Or.inl rfl)).2.1,
   (updater_idempotent "p1" "b1" bucketNeedsBoth (Or.inl rfl)).2.2.1⟩

/-- C8: for every attempt number k and jitter j with 0 ≤ j < 1, the backoff
delay is `base * 2 ^ k + j` (base nonnegative, 1 by default), and the
expected delay `base * 2 ^ k + 1/2` is monotonically non-decreasing in k. -/
theorem backoff_formula_and_monotone (base : ℚ) (hbase : 0 ≤ base) :
    (∀ (k : Nat) (j : ℚ), 0 ≤ j → j < 1 →
      backoff_delay base k j = base * 2 ^ k + j) ∧
    (∀ k : Nat, expected_backoff_delay base k = base * 2 ^ k + 1 / 2) ∧
    ∀ k1 k2 : Nat, k1 ≤ k2 →
      expected_backoff_delay base k1 ≤ expected_backoff_delay base k2 := by
  refine ⟨fun k j _ _ => rfl, fun k => rfl, fun k1 k2 hk => ?_⟩
  unfold expected_backoff_delay backoff_delay
  have h2 : (2 : ℚ) ^ k1 ≤ 2 ^ k2 := by
    apply pow_le_pow_right₀ (by norm_num) hk
  have := mul_le_mul_of_nonneg_left h2 hbase
  linarith

theorem backoff_formula_and_monotone_witness :
    backoff_delay 1 3 (1 / 4) = 1 * 2 ^ 3 + 1 / 4 ∧
    expected_backoff_delay 1 2 ≤ expected_backoff_delay 1 4 :=
  ⟨(backoff_formula_and_monotone 1 (by norm_num)).1 3 (1 / 4) (by norm_num)
      (by norm_num),
   (backoff_formula_and_monotone 1 (by norm_num)).2.2 2 4 (by norm_num)⟩

/-- C9: a worker whose exception escapes the Updater's own error handling
does not crash the collection loop: for any completion order, the output
report consists exactly of the rows of the workers that returned (in some
order), and the number of collected rows plus the number of dropped
(raising) workers equals the number of input rows; the run always produces
an output list. -/
theorem unexpected_worker_failure_dropped (tasks : List (Row × RowEnv))
    (completed : List (Except PyError ResultRow))
    (hperm : completed.Perm (futures tasks)) :
    (process_csv completed).Perm ((tasks.filter workerOk).map rowOk) ∧
    (process_csv completed).length +
      (tasks.filter (fun t => !workerOk t)).length = tasks.length := by
  have hp : (process_csv completed).Perm (process_csv (futures tasks)) :=
    List.Perm.filterMap collectResult hperm
  rw [process_csv_futures tasks] at hp
  refine ⟨hp, ?_⟩
  rw [hp.length_eq, List.length_map]
  exact (List.length_eq_length_filter_add workerOk).symm

theorem unexpected_worker_failure_dropped_witness :
    (process_csv ((futures tasksOneBad).reverse)).Perm
      ((tasksOneBad.filter workerOk).map rowOk) ∧
    (process_csv ((futures tasksOneBad).reverse)).length +
      (tasksOneBad.filter (fun t => !workerOk t)).length =
      tasksOneBad.length :=
  unexpected_worker_failure_dropped tasksOneBad
    ((futures tasksOneBad).reverse) (List.reverse_perm (futures tasksOneBad))

/-- C10: the retry wrapper always terminates and invokes the wrapped
function at most `retries` times; if the first `k` invocations raise
transient errors and the `k`-th (0-based) invocation settles (returns or
raises non-transiently) with `k < retries`, the wrapper's outcome is that
invocation's outcome after `k + 1` calls and `k` backoff sleeps; if all
`retries` invocations raise transient errors, the wrapper raises
`Exception("Failed after <retries> retries")` after `retries` calls and
`retries` sleeps (one sleep after every transient failure, the final one
included); for `retries = 0` it raises without invoking the function. -/
theorem retry_wrapper_spec {α : Type} (retries : Nat)
    (f : Nat → Except PyError α) :
    (retry_with_backoff retries f).calls ≤ retries ∧
    (∀ k, k < retries → (∀ i, i < k → exceptTransient (f i) = true) →
      exceptTransient (f k) = false →
      (retry_with_backoff retries f).result = f k ∧
      (retry_with_backoff retries f).calls = k + 1 ∧
      (retry_with_backoff retries f).sleeps = k) ∧
    ((∀ i, i < retries → exceptTransient (f i) = true) →
      (retry_with_backoff retries f).result =
        .error (.retryExhausted
          ("Failed after " ++ toString retries ++ " retries")) ∧
      (retry_with_backoff retries f).calls = retries ∧
      (retry_with_backoff retries f).sleeps = retries) ∧
    (retries = 0 →
      (retry_with_backoff retries f).calls = 0 ∧
      (retry_with_backoff retries f).result =
        .error (.retryExhausted "Failed after 0 retries")) := by
  refine ⟨retryGo_calls_le f retries retries 0, ?_, ?_, ?_⟩
  · intro k hk hbefore hsettle
    have h := retryGo_first_settled f retries k retries 0 hk
      (fun i hi => by simpa using hbefore i hi) (by simpa using hsettle)
    unfold retry_with_backoff
    rw [h]
    exact ⟨by rw [Nat.zero_add], rfl, rfl⟩
  · intro hall
    have h := retryGo_all_transient f retries retries 0
      (fun i hi => by simpa using hall i hi)
    unfold retry_with_backoff
    rw [h]
    exact ⟨rfl, rfl, rfl⟩
  · intro h0
    subst h0
    exact ⟨rfl, rfl⟩

theorem retry_wrapper_spec_witness :
    (retry_with_backoff 2 alwaysTransient).result =
      .error (.retryExhausted ("Failed after " ++ toString 2 ++ " retries")) ∧
    (retry_with_backoff 2 alwaysTransient).calls = 2 ∧
    (retry_with_backoff 2 alwaysTransient).sleeps = 2 :=
  (retry_wrapper_spec 2 alwaysTransient).2.2.1 (fun _ _ => rfl)
